import Mathlib

/-!
Verification of the `enumizer` crate: a macro library generating Option-like,
Result-like and Either-like enums with custom variant names
(`alias_option!`, `alias_result!`, `alias_either!` in `src/option.rs`,
`src/result.rs`, `src/either.rs`).

The generated code is parametric in the user-chosen variant identifiers: the
identifiers affect only the synthesized method names and the panic-message
text, never the behaviour of a method body.  Each emitted enum is therefore
embedded here once, with generic constructor names mirroring the macro
metavariables (`$some_variant`, `$none_variant`, `$ok_variant`,
`$err_variant`, `$left_variant`, `$right_variant`), and the panic messages
are modelled as functions of the identifier strings.  Panicking operations
(`unwrap`, `unreachable!`) are embedded in `Except String`, the error
carrying the panic message.
-/

/-- Rust `std::ops::ControlFlow`, used by the `Try` implementations emitted
under `implement_try`. -/
inductive RustControlFlow (B C : Type) : Type where
  | Break : B → RustControlFlow B C
  | Continue : C → RustControlFlow B C

/-- Rust `std::result::Result`, with `Ok` declared first as in the standard
library (so that the derived ordering puts every `Ok` below every `Err`). -/
inductive RustResult (T E : Type) : Type where
  | Ok : T → RustResult T E
  | Err : E → RustResult T E

/-- The enum emitted by `alias_option!($type_name, $some_variant, $none_variant)`
(src/option.rs lines 131-135): `enum $type_name<T> { $none_variant, $some_variant(T) }`.
The empty variant is declared first. -/
inductive AliasOption (T : Type) : Type where
  | none_variant : AliasOption T
  | some_variant : T → AliasOption T

/-- The enum emitted by `alias_result!($type_name, $ok_variant, $err_variant)`
(src/result.rs lines 106-110): `enum $type_name<T, E> { $ok_variant(T), $err_variant(E) }`.
The success variant is declared first. -/
inductive AliasResult (T E : Type) : Type where
  | ok_variant : T → AliasResult T E
  | err_variant : E → AliasResult T E

/-- The enum emitted by `alias_either!($type_name, $left_variant, $right_variant)`
(src/either.rs lines 59-63): `enum $type_name<L, R> { $left_variant(L), $right_variant(R) }`. -/
inductive AliasEither (L R : Type) : Type where
  | left_variant : L → AliasEither L R
  | right_variant : R → AliasEither L R

variable {T E L R U F : Type}

/-- `is_$none_variant` (src/option.rs 139-141): `matches!(self, $type_name::$none_variant)`. -/
def AliasOption.is_none_variant : AliasOption T → Bool
  | .none_variant => true
  | .some_variant _ => false

/-- `is_$some_variant` (src/option.rs 144-146): `matches!(self, $type_name::$some_variant(_))`. -/
def AliasOption.is_some_variant : AliasOption T → Bool
  | .none_variant => false
  | .some_variant _ => true

/-- `is_$some_variant_and` (src/option.rs 149-154). -/
def AliasOption.is_some_variant_and (f : T → Bool) : AliasOption T → Bool
  | .some_variant v => f v
  | _ => false

/-- `is_$none_variant_or` (src/option.rs 157-162). -/
def AliasOption.is_none_variant_or (f : T → Bool) : AliasOption T → Bool
  | .none_variant => true
  | .some_variant v => f v

/-- `as_$some_variant` (src/option.rs 165-170): borrowed view of the payload. -/
def AliasOption.as_some_variant : AliasOption T → Option T
  | .some_variant v => some v
  | _ => none

/-- `as_$some_variant_mut` (src/option.rs 173-178): mutable borrowed view,
same match structure as the shared accessor. -/
def AliasOption.as_some_variant_mut : AliasOption T → Option T
  | .some_variant v => some v
  | _ => none

/-- `map` (src/option.rs 181-186). -/
def AliasOption.map (f : T → U) : AliasOption T → AliasOption U
  | .some_variant v => .some_variant (f v)
  | .none_variant => .none_variant

/-- The panic message of the Nullable-shape `unwrap`
(src/option.rs 193): `called unwrap() on a $none_variant`, with the
identifier interpolated via `stringify!($none_variant)`. -/
def option_unwrap_msg (none_name : String) : String :=
  "called `unwrap()` on a `" ++ none_name ++ "`"

/-- `unwrap` (src/option.rs 189-196); the panic is modelled as `Except.error`
carrying the panic message, which depends on the `$none_variant` identifier. -/
def AliasOption.unwrap (none_name : String) : AliasOption T → Except String T
  | .some_variant v => .ok v
  | .none_variant => .error (option_unwrap_msg none_name)

/-- `unwrap_or` (src/option.rs 199-204). -/
def AliasOption.unwrap_or (x : AliasOption T) (default : T) : T :=
  match x with
  | .some_variant v => v
  | .none_variant => default

/-- `unwrap_or_else` (src/option.rs 207-212); `F: FnOnce() -> T` becomes `Unit → T`. -/
def AliasOption.unwrap_or_else (x : AliasOption T) (f : Unit → T) : T :=
  match x with
  | .some_variant v => v
  | .none_variant => f ()

/-- `impl From<Option<T>> for $type_name<T>` (src/option.rs 215-222). -/
def AliasOption.from_option : Option T → AliasOption T
  | some v => .some_variant v
  | none => .none_variant

/-- `impl From<$type_name<T>> for Option<T>` (src/option.rs 224-231). -/
def AliasOption.to_option : AliasOption T → Option T
  | .some_variant v => some v
  | .none_variant => none

/-- `Try::from_output` (src/option.rs 241-243). -/
def AliasOption.from_output (output : T) : AliasOption T :=
  .some_variant output

/-- `Try::branch` (src/option.rs 245-250); the residual type is
`$type_name<Infallible>`, with `Infallible` embedded as `Empty`. -/
def AliasOption.branch : AliasOption T → RustControlFlow (AliasOption Empty) T
  | .some_variant v => .Continue v
  | .none_variant => .Break .none_variant

/-- `FromResidual::from_residual` (src/option.rs 253-257): ignores the residual
and produces the empty variant. -/
def AliasOption.from_residual (_ : AliasOption Empty) : AliasOption T :=
  .none_variant

/-- The desugaring of the `?` operator on a Nullable-shape value inside a
function returning the same generated type, per the emitted `Try` and
`FromResidual` impls: `match branch x { Continue v => k v, Break r => return from_residual r }`
(doc example src/option.rs 96-110). -/
def AliasOption.qmark (x : AliasOption T) (k : T → AliasOption U) : AliasOption U :=
  match x.branch with
  | .Continue v => k v
  | .Break r => AliasOption.from_residual r

/-- The two-value `?` composition from the doc example `try_example`
(src/option.rs 102-106), generalized over the combining function. -/
def AliasOption.try_example (f : T → T → T) (val1 val2 : AliasOption T) : AliasOption T :=
  val1.qmark fun x => val2.qmark fun y => .some_variant (f x y)

/-- The comparison derived by `#[derive(Ord)]` on the emitted enum, per Rust
derive semantics: variants compare by declaration order (`$none_variant`
first, src/option.rs 131-135), then payloads componentwise. -/
def AliasOption.cmp (c : T → T → Ordering) : AliasOption T → AliasOption T → Ordering
  | .none_variant, .none_variant => .eq
  | .none_variant, .some_variant _ => .lt
  | .some_variant _, .none_variant => .gt
  | .some_variant a, .some_variant b => c a b

/-- The comparison derived for Rust `Option<T>` (`None` declared first). -/
def rust_option_cmp (c : T → T → Ordering) : Option T → Option T → Ordering
  | none, none => .eq
  | none, some _ => .lt
  | some _, none => .gt
  | some a, some b => c a b

/-- `is_$ok_variant` (src/result.rs 114-116). -/
def AliasResult.is_ok_variant : AliasResult T E → Bool
  | .ok_variant _ => true
  | .err_variant _ => false

/-- `is_$err_variant` (src/result.rs 119-121). -/
def AliasResult.is_err_variant : AliasResult T E → Bool
  | .ok_variant _ => false
  | .err_variant _ => true

/-- `as_$ok_variant` (src/result.rs 124-129). -/
def AliasResult.as_ok_variant : AliasResult T E → Option T
  | .ok_variant v => some v
  | _ => none

/-- `as_$ok_variant_mut` (src/result.rs 132-137). -/
def AliasResult.as_ok_variant_mut : AliasResult T E → Option T
  | .ok_variant v => some v
  | _ => none

/-- `as_$err_variant` (src/result.rs 140-145). -/
def AliasResult.as_err_variant : AliasResult T E → Option E
  | .err_variant e => some e
  | _ => none

/-- `as_$err_variant_mut` (src/result.rs 148-153). -/
def AliasResult.as_err_variant_mut : AliasResult T E → Option E
  | .err_variant e => some e
  | _ => none

/-- `map` (src/result.rs 156-161). -/
def AliasResult.map (f : T → U) : AliasResult T E → AliasResult U E
  | .ok_variant v => .ok_variant (f v)
  | .err_variant e => .err_variant e

/-- `map_err` (src/result.rs 164-169). -/
def AliasResult.map_err (op : E → F) : AliasResult T E → AliasResult T F
  | .ok_variant v => .ok_variant v
  | .err_variant e => .err_variant (op e)

/-- The panic message of the Fallible-shape `unwrap`
(src/result.rs 176): `called unwrap() on an $err_variant`. -/
def result_unwrap_msg (err_name : String) : String :=
  "called `unwrap()` on an `" ++ err_name ++ "`"

/-- `unwrap` (src/result.rs 172-179); the panic is modelled as `Except.error`. -/
def AliasResult.unwrap (err_name : String) : AliasResult T E → Except String T
  | .ok_variant v => .ok v
  | .err_variant _ => .error (result_unwrap_msg err_name)

/-- `unwrap_or` (src/result.rs 182-187). -/
def AliasResult.unwrap_or (x : AliasResult T E) (default : T) : T :=
  match x with
  | .ok_variant v => v
  | .err_variant _ => default

/-- `unwrap_or_else` (src/result.rs 190-195): the producer receives the
failure payload (`F: FnOnce(E) -> T`). -/
def AliasResult.unwrap_or_else (x : AliasResult T E) (op : E → T) : T :=
  match x with
  | .ok_variant v => v
  | .err_variant e => op e

/-- `impl From<Result<T, E>> for $type_name<T, E>` (src/result.rs 198-205). -/
def AliasResult.from_result : RustResult T E → AliasResult T E
  | .Ok v => .ok_variant v
  | .Err e => .err_variant e

/-- `impl From<$type_name<T, E>> for Result<T, E>` (src/result.rs 207-214). -/
def AliasResult.to_result : AliasResult T E → RustResult T E
  | .ok_variant v => .Ok v
  | .err_variant e => .Err e

/-- `Try::from_output` (src/result.rs 224-226). -/
def AliasResult.from_output (output : T) : AliasResult T E :=
  .ok_variant output

/-- `Try::branch` (src/result.rs 228-233); the residual is
`$type_name<Infallible, E>` and carries the original failure payload. -/
def AliasResult.branch : AliasResult T E → RustControlFlow (AliasResult Empty E) T
  | .ok_variant v => .Continue v
  | .err_variant e => .Break (.err_variant e)

/-- `FromResidual::from_residual` (src/result.rs 236-243): re-wraps the failure
payload; the wildcard arm is `unreachable!()`, modelled as `Except.error` with
the Rust unreachable-panic message. -/
def AliasResult.from_residual : AliasResult Empty E → Except String (AliasResult T E)
  | .err_variant e => .ok (.err_variant e)
  | .ok_variant _ => .error "internal error: entered unreachable code"

/-- The desugaring of the `?` operator on a Fallible-shape value inside a
function returning the same generated type, per the emitted `Try` and
`FromResidual` impls (doc example src/result.rs 57-71).  The result lives in
`Except String` because `from_residual` can in principle panic. -/
def AliasResult.qmark (x : AliasResult T E) (k : T → Except String (AliasResult U E)) :
    Except String (AliasResult U E) :=
  match x.branch with
  | .Continue v => k v
  | .Break r => AliasResult.from_residual r

/-- The two-value `?` composition from the doc example `try_example`
(src/result.rs 63-67), generalized over the combining function. -/
def AliasResult.try_example (f : T → T → T) (res1 res2 : AliasResult T E) :
    Except String (AliasResult T E) :=
  res1.qmark fun x => res2.qmark fun y => .ok (.ok_variant (f x y))

/-- The comparison derived by `#[derive(Ord)]` on the emitted enum
(`$ok_variant` declared first, src/result.rs 106-110). -/
def AliasResult.cmp (cT : T → T → Ordering) (cE : E → E → Ordering) :
    AliasResult T E → AliasResult T E → Ordering
  | .ok_variant a, .ok_variant b => cT a b
  | .ok_variant _, .err_variant _ => .lt
  | .err_variant _, .ok_variant _ => .gt
  | .err_variant a, .err_variant b => cE a b

/-- The comparison derived for Rust `Result<T, E>` (`Ok` declared first). -/
def rust_result_cmp (cT : T → T → Ordering) (cE : E → E → Ordering) :
    RustResult T E → RustResult T E → Ordering
  | .Ok a, .Ok b => cT a b
  | .Ok _, .Err _ => .lt
  | .Err _, .Ok _ => .gt
  | .Err a, .Err b => cE a b

/-- `is_$left_variant` (src/either.rs 67-69). -/
def AliasEither.is_left_variant : AliasEither L R → Bool
  | .left_variant _ => true
  | .right_variant _ => false

/-- `is_$right_variant` (src/either.rs 72-74). -/
def AliasEither.is_right_variant : AliasEither L R → Bool
  | .left_variant _ => false
  | .right_variant _ => true

/-- `as_$left_variant` (src/either.rs 77-82). -/
def AliasEither.as_left_variant : AliasEither L R → Option L
  | .left_variant v => some v
  | _ => none

/-- `as_$left_variant_mut` (src/either.rs 85-90). -/
def AliasEither.as_left_variant_mut : AliasEither L R → Option L
  | .left_variant v => some v
  | _ => none

/-- `as_$right_variant` (src/either.rs 93-98). -/
def AliasEither.as_right_variant : AliasEither L R → Option R
  | .right_variant v => some v
  | _ => none

/-- `as_$right_variant_mut` (src/either.rs 101-106). -/
def AliasEither.as_right_variant_mut : AliasEither L R → Option R
  | .right_variant v => some v
  | _ => none

/-- `map_$left_variant` (src/either.rs 109-114). -/
def AliasEither.map_left_variant (f : L → T) : AliasEither L R → AliasEither T R
  | .left_variant v => .left_variant (f v)
  | .right_variant v => .right_variant v

/-- `map_$right_variant` (src/either.rs 117-122). -/
def AliasEither.map_right_variant (f : R → T) : AliasEither L R → AliasEither L T
  | .left_variant v => .left_variant v
  | .right_variant v => .right_variant (f v)

/-- The panic message of the Either-shape unwrap methods
(src/either.rs 129 and 139): `called unwrap_$expected:lower() on a $actual`,
with the expected identifier lowercased by the paste `:lower` modifier. -/
def either_unwrap_msg (expected_name actual_name : String) : String :=
  "called `unwrap_" ++ expected_name.toLower ++ "()` on a `" ++ actual_name ++ "`"

/-- `unwrap_$left_variant` (src/either.rs 125-132). -/
def AliasEither.unwrap_left_variant (left_name right_name : String) :
    AliasEither L R → Except String L
  | .left_variant v => .ok v
  | .right_variant _ => .error (either_unwrap_msg left_name right_name)

/-- `unwrap_$right_variant` (src/either.rs 135-142). -/
def AliasEither.unwrap_right_variant (left_name right_name : String) :
    AliasEither L R → Except String R
  | .right_variant v => .ok v
  | .left_variant _ => .error (either_unwrap_msg right_name left_name)

/-- Default derive list, substituted by the no-`traits:` macro arms
(src/option.rs 114-116, src/result.rs 89-91, src/either.rs 51-53). -/
def default_traits : List String :=
  ["Debug", "Clone", "Copy", "PartialEq", "Eq", "Ord", "PartialOrd", "Hash"]

/-- Normalization of the capability list by the macro dispatch arms
(src/option.rs 114-128): an omitted list becomes the default; a supplied
`traits: [...]` list is forwarded verbatim into the derive attribute.  No arm
inspects or rejects the list; the `Except` codomain expresses the possibility
of a generation-time rejection, which never occurs. -/
def normalize_traits : Option (List String) → Except String (List String)
  | none => Except.ok default_traits
  | some ts => Except.ok ts

/-- Substring test used to reason about panic-message contents. -/
def listContains (needle hay : List Char) : Bool :=
  hay.tails.any fun t => needle.isPrefixOf t

/-- `strContains hay needle`: `needle` occurs contiguously in `hay`. -/
def strContains (hay needle : String) : Bool :=
  listContains needle.data hay.data

theorem isPrefixOf_append_self (s b : List Char) : s.isPrefixOf (s ++ b) = true := by
  induction s with
  | nil => simp [List.isPrefixOf]
  | cons c cs ih => simp [List.isPrefixOf, ih]

theorem any_tails_self (p : List Char → Bool) (l : List Char) (h : p l = true) :
    l.tails.any p = true := by
  cases l with
  | nil => simpa [List.tails] using h
  | cons c cs => simp [List.tails, h]

theorem listContains_append (a s b : List Char) : listContains s (a ++ (s ++ b)) = true := by
  induction a with
  | nil => exact any_tails_self _ _ (isPrefixOf_append_self s b)
  | cons c a2 ih =>
      simp only [listContains, List.cons_append, List.tails, List.any_cons, Bool.or_eq_true]
      right
      simpa [listContains] using ih

theorem strContains_middle (a s b : String) : strContains (a ++ s ++ b) s = true := by
  show listContains s.data (a ++ s ++ b).data = true
  rw [String.data_append, String.data_append, List.append_assoc]
  exact listContains_append a.data s.data b.data

/-- Claim C1: for every payload type and every value, conversion between a
generated shape and its canonical counterpart is a lossless round-trip in both
directions: Nullable-shape ↔ `Option` and Fallible-shape ↔ `Result`, each
composite being the identity. -/
theorem claim_C1 (T E : Type) (o : Option T) (x : AliasOption T)
    (r : RustResult T E) (y : AliasResult T E) :
    AliasOption.to_option (AliasOption.from_option o) = o
    ∧ AliasOption.from_option (AliasOption.to_option x) = x
    ∧ AliasResult.to_result (AliasResult.from_result r) = r
    ∧ AliasResult.from_result (AliasResult.to_result y) = y := by
  refine ⟨?_, ?_, ?_, ?_⟩
  · cases o <;> rfl
  · cases x <;> rfl
  · cases r <;> rfl
  · cases y <;> rfl

/-- Claim C5: the map transforms (`map` for the Nullable shape, `map`/`map_err`
for the Fallible shape, `map_<left>`/`map_<right>` for the Either shape) apply
the user function to the payload only on the targeted variant, leave the other
variant unchanged, and mapping with the identity function is the identity. -/
theorem claim_C5 (T E L R U F2 : Type) (f : T → U) (g : E → F2)
    (fl : L → U) (fr : R → U) (v : T) (e : E) (a : L) (b : R)
    (x : AliasOption T) (y : AliasResult T E) (z : AliasEither L R) :
    AliasOption.map f (.some_variant v) = .some_variant (f v)
    ∧ AliasOption.map f (.none_variant : AliasOption T) = .none_variant
    ∧ AliasOption.map id x = x
    ∧ AliasResult.map f (.ok_variant v : AliasResult T E) = .ok_variant (f v)
    ∧ AliasResult.map f (.err_variant e : AliasResult T E) = .err_variant e
    ∧ AliasResult.map_err g (.ok_variant v : AliasResult T E) = .ok_variant v
    ∧ AliasResult.map_err g (.err_variant e : AliasResult T E) = .err_variant (g e)
    ∧ AliasResult.map id y = y
    ∧ AliasResult.map_err id y = y
    ∧ AliasEither.map_left_variant fl (.left_variant a : AliasEither L R) = .left_variant (fl a)
    ∧ AliasEither.map_left_variant fl (.right_variant b : AliasEither L R) = .right_variant b
    ∧ AliasEither.map_right_variant fr (.left_variant a : AliasEither L R) = .left_variant a
    ∧ AliasEither.map_right_variant fr (.right_variant b : AliasEither L R) = .right_variant (fr b)
    ∧ AliasEither.map_left_variant id z = z
    ∧ AliasEither.map_right_variant id z = z := by
  refine ⟨rfl, rfl, ?_, rfl, rfl, rfl, rfl, ?_, ?_, rfl, rfl, rfl, rfl, ?_, ?_⟩
  · cases x <;> rfl
  · cases y <;> rfl
  · cases y <;> rfl
  · cases z <;> rfl
  · cases z <;> rfl

/-- Claim C6: for the Nullable and Fallible shapes, `unwrap_or` returns the
payload on the forward variant and the default otherwise; `unwrap_or_else`
returns the result of the producer instead of the default, the Fallible producer
receiving the failure payload. -/
theorem claim_C6 (T E : Type) (v d : T) (e : E) (f : Unit → T) (op : E → T) :
    AliasOption.unwrap_or (.some_variant v) d = v
    ∧ AliasOption.unwrap_or (.none_variant : AliasOption T) d = d
    ∧ AliasOption.unwrap_or_else (.some_variant v) f = v
    ∧ AliasOption.unwrap_or_else (.none_variant : AliasOption T) f = f ()
    ∧ AliasResult.unwrap_or (.ok_variant v : AliasResult T E) d = v
    ∧ AliasResult.unwrap_or (.err_variant e : AliasResult T E) d = d
    ∧ AliasResult.unwrap_or_else (.ok_variant v : AliasResult T E) op = v
    ∧ AliasResult.unwrap_or_else (.err_variant e : AliasResult T E) op = op e :=
  ⟨rfl, rfl, rfl, rfl, rfl, rfl, rfl, rfl⟩

/-- Claim C3: for every value of a generated shape, exactly one `is_<variant>`
predicate is true (the two predicates are complementary booleans); the shared
and mutable accessors are present exactly on the variant whose predicate
holds, returning the payload, and absent on every other variant. -/
theorem claim_C3 (T E L R : Type) (v : T) (e : E) (a : L) (b : R)
    (x : AliasOption T) (y : AliasResult T E) (z : AliasEither L R) :
    x.is_some_variant = !x.is_none_variant
    ∧ x.as_some_variant.isSome = x.is_some_variant
    ∧ x.as_some_variant_mut.isSome = x.is_some_variant
    ∧ AliasOption.as_some_variant (.some_variant v) = some v
    ∧ AliasOption.as_some_variant_mut (.some_variant v) = some v
    ∧ AliasOption.as_some_variant (.none_variant : AliasOption T) = none
    ∧ AliasOption.as_some_variant_mut (.none_variant : AliasOption T) = none
    ∧ y.is_ok_variant = !y.is_err_variant
    ∧ y.as_ok_variant.isSome = y.is_ok_variant
    ∧ y.as_ok_variant_mut.isSome = y.is_ok_variant
    ∧ y.as_err_variant.isSome = y.is_err_variant
    ∧ y.as_err_variant_mut.isSome = y.is_err_variant
    ∧ AliasResult.as_ok_variant (.ok_variant v : AliasResult T E) = some v
    ∧ AliasResult.as_ok_variant_mut (.ok_variant v : AliasResult T E) = some v
    ∧ AliasResult.as_err_variant (.ok_variant v : AliasResult T E) = none
    ∧ AliasResult.as_err_variant (.err_variant e : AliasResult T E) = some e
    ∧ AliasResult.as_err_variant_mut (.err_variant e : AliasResult T E) = some e
    ∧ AliasResult.as_ok_variant (.err_variant e : AliasResult T E) = none
    ∧ z.is_left_variant = !z.is_right_variant
    ∧ z.as_left_variant.isSome = z.is_left_variant
    ∧ z.as_left_variant_mut.isSome = z.is_left_variant
    ∧ z.as_right_variant.isSome = z.is_right_variant
    ∧ z.as_right_variant_mut.isSome = z.is_right_variant
    ∧ AliasEither.as_left_variant (.left_variant a : AliasEither L R) = some a
    ∧ AliasEither.as_left_variant_mut (.left_variant a : AliasEither L R) = some a
    ∧ AliasEither.as_right_variant (.left_variant a : AliasEither L R) = none
    ∧ AliasEither.as_right_variant (.right_variant b : AliasEither L R) = some b
    ∧ AliasEither.as_right_variant_mut (.right_variant b : AliasEither L R) = some b
    ∧ AliasEither.as_left_variant (.right_variant b : AliasEither L R) = none := by
  cases x <;> cases y <;> cases z <;>
    exact ⟨rfl, rfl, rfl, rfl, rfl, rfl, rfl, rfl, rfl, rfl, rfl, rfl, rfl, rfl, rfl,
      rfl, rfl, rfl, rfl, rfl, rfl, rfl, rfl, rfl, rfl, rfl, rfl, rfl, rfl⟩

/-- Claim C4: with the short-circuit feature enabled, the emitted protocol
continues with the payload on a forward-tagged value and short-circuits on a
stop-tagged value, producing a value of the same generated type carrying the
original stop payload unmodified, in either position of a two-value
composition; composing two forward values combines their payloads. -/
theorem claim_C4 (T E U2 : Type) (v w : T) (e : E) (f : T → T → T)
    (k : T → AliasOption U2) (k2 : T → Except String (AliasResult U2 E))
    (val2 : AliasOption T) (res2 : AliasResult T E) :
    AliasOption.qmark (.some_variant v) k = k v
    ∧ AliasOption.qmark (.none_variant : AliasOption T) k = .none_variant
    ∧ AliasOption.try_example f .none_variant val2 = .none_variant
    ∧ AliasOption.try_example f (.some_variant v) (.none_variant : AliasOption T) = .none_variant
    ∧ AliasOption.try_example f (.some_variant v) (.some_variant w) = .some_variant (f v w)
    ∧ AliasResult.qmark (.ok_variant v : AliasResult T E) k2 = k2 v
    ∧ AliasResult.qmark (.err_variant e : AliasResult T E) k2 = .ok (.err_variant e)
    ∧ AliasResult.try_example f (.err_variant e) res2 = .ok (.err_variant e)
    ∧ AliasResult.try_example f (.ok_variant v) (.err_variant e : AliasResult T E)
        = .ok (.err_variant e)
    ∧ AliasResult.try_example f (.ok_variant v) (.ok_variant w : AliasResult T E)
        = .ok (.ok_variant (f v w)) :=
  ⟨rfl, rfl, rfl, rfl, rfl, rfl, rfl, rfl, rfl, rfl⟩

/-- Claim C7: for the Fallible shape with short-circuit enabled,
`from_residual` is total on every constructible residual: its
success-payload type (`Infallible`, embedded as `Empty`) is uninhabited, so
every residual is the failure variant, the `unreachable!` arm is never taken,
and `from_residual` re-wraps the failure payload without panicking. -/
theorem claim_C7 (T E : Type) (r : AliasResult Empty E) :
    ∃ e : E, r = .err_variant e
      ∧ (AliasResult.from_residual r : Except String (AliasResult T E))
          = .ok (.err_variant e) := by
  cases r with
  | ok_variant v => exact v.elim
  | err_variant e => exact ⟨e, rfl, rfl⟩

/-- Claim C10: under the derived structural ordering, the Nullable shape
declares the empty variant first, so an empty value is strictly below any
populated value and conversion to `Option` is order-preserving (the derived
comparison agrees with the comparison of `Option` at converted arguments, hence `x <= y` iff
`Option::from(x) <= Option::from(y)`); the Fallible shape declares the success
variant first, so a success is strictly below any failure, matching the
derived ordering of `Result` through conversion. -/
theorem claim_C10 (T E : Type) (c : T → T → Ordering) (cE : E → E → Ordering)
    (v : T) (e : E) (x y : AliasOption T) (p q : AliasResult T E) :
    AliasOption.cmp c x y = rust_option_cmp c x.to_option y.to_option
    ∧ (AliasOption.cmp c x y).isLE
        = (rust_option_cmp c x.to_option y.to_option).isLE
    ∧ AliasOption.cmp c .none_variant (.some_variant v) = .lt
    ∧ AliasResult.cmp c cE p q = rust_result_cmp c cE p.to_result q.to_result
    ∧ (AliasResult.cmp c cE p q).isLE
        = (rust_result_cmp c cE p.to_result q.to_result).isLE
    ∧ AliasResult.cmp c cE (.ok_variant v) (.err_variant e) = .lt := by
  refine ⟨?_, ?_, rfl, ?_, ?_, rfl⟩
  · cases x <;> cases y <;> rfl
  · cases x <;> cases y <;> rfl
  · cases p <;> cases q <;> rfl
  · cases p <;> cases q <;> rfl

/-- Claim C2, counterexample: for the documented instantiation
`alias_option!(OptionExample, Found, Missing)` (src/examples.rs), calling
`unwrap` on the empty variant panics with the message
`called unwrap() on a Missing`, which names only the variant actually present
(`Missing`): the expected variant identifier `Found` does not occur in the
message, contradicting the claim that the diagnostic names both identifiers
for every shape. -/
theorem claim_C2_counterexample :
    AliasOption.unwrap "Missing" (.none_variant : AliasOption Nat)
      = .error (option_unwrap_msg "Missing")
    ∧ strContains (option_unwrap_msg "Missing") "Missing" = true
    ∧ strContains (option_unwrap_msg "Missing") "Found" = false := by
  refine ⟨rfl, ?_, ?_⟩ <;> decide

/-- Claim C2, amended: for every shape, the unwrap-style extractor returns the
payload on the expected variant and is a fatal panic on the other variant; the
panic message always names the variant identifier actually present, but only
the Either shape message also names the expected identifier (lowercased,
embedded in the reported method name); the Nullable and Fallible shape
messages name only the actual variant. -/
theorem claim_C2 (T E L R : Type) (v : T) (e : E) (a : L) (b : R)
    (nn en ln rn : String) :
    AliasOption.unwrap nn (.some_variant v) = .ok v
    ∧ AliasOption.unwrap nn (.none_variant : AliasOption T) = .error (option_unwrap_msg nn)
    ∧ strContains (option_unwrap_msg nn) nn = true
    ∧ AliasResult.unwrap en (.ok_variant v : AliasResult T E) = .ok v
    ∧ AliasResult.unwrap en (.err_variant e : AliasResult T E) = .error (result_unwrap_msg en)
    ∧ strContains (result_unwrap_msg en) en = true
    ∧ AliasEither.unwrap_left_variant ln rn (.left_variant a : AliasEither L R) = .ok a
    ∧ AliasEither.unwrap_left_variant ln rn (.right_variant b : AliasEither L R)
        = .error (either_unwrap_msg ln rn)
    ∧ strContains (either_unwrap_msg ln rn) rn = true
    ∧ strContains (either_unwrap_msg ln rn) ln.toLower = true
    ∧ AliasEither.unwrap_right_variant ln rn (.right_variant b : AliasEither L R) = .ok b
    ∧ AliasEither.unwrap_right_variant ln rn (.left_variant a : AliasEither L R)
        = .error (either_unwrap_msg rn ln)
    ∧ strContains (either_unwrap_msg rn ln) ln = true
    ∧ strContains (either_unwrap_msg rn ln) rn.toLower = true := by
  refine ⟨rfl, rfl, ?_, rfl, rfl, ?_, rfl, rfl, ?_, ?_, rfl, rfl, ?_, ?_⟩
  · exact strContains_middle "called `unwrap()` on a `" nn "`"
  · exact strContains_middle "called `unwrap()` on an `" en "`"
  · have h := strContains_middle ("called `unwrap_" ++ ln.toLower ++ "()` on a `") rn "`"
    simpa [either_unwrap_msg, String.append_assoc] using h
  · have h := strContains_middle "called `unwrap_" ln.toLower
      ("()` on a `" ++ rn ++ "`")
    simpa [either_unwrap_msg, String.append_assoc] using h
  · have h := strContains_middle ("called `unwrap_" ++ rn.toLower ++ "()` on a `") ln "`"
    simpa [either_unwrap_msg, String.append_assoc] using h
  · have h := strContains_middle "called `unwrap_" rn.toLower
      ("()` on a `" ++ ln ++ "`")
    simpa [either_unwrap_msg, String.append_assoc] using h

/-- Claim C9, counterexample: the capability list `[Debug, Hash]` includes
hashing but not equality, yet normalization accepts it verbatim: the
`traits:` dispatch arm (src/option.rs 117-119) forwards any supplied list
unchanged into the derive attribute and rejects nothing, so the emitted type
carries exactly this list, contradicting the claimed generation-time
rejection. -/
theorem claim_C9_counterexample :
    List.contains ["Debug", "Hash"] "Hash" = true
    ∧ List.contains ["Debug", "Hash"] "Eq" = false
    ∧ normalize_traits (some ["Debug", "Hash"]) = Except.ok ["Debug", "Hash"] := by
  refine ⟨?_, ?_, rfl⟩ <;> decide

/-- Claim C9, amended: normalization never rejects a capability list: a
supplied list is forwarded verbatim to the emitted derive annotation
(inconsistent combinations such as hashing or ordering without equality
included), and an omitted list becomes the fixed default set. -/
theorem claim_C9 (ts : List String) :
    normalize_traits (some ts) = Except.ok ts
    ∧ normalize_traits none = Except.ok default_traits :=
  ⟨rfl, rfl⟩
